import Mathlib

/-
Verification of the scoped-resource wrapper and the Vulkan device-selection
pipeline of the cvs-lib repository, via a shallow embedding of
src/include/VSC/util/ScopedResource.h and src/src/EnumeratorVk.cpp.

Native handles and auxiliary contexts are embedded as plain values; destroyer
function pointers are embedded as opaque numeric identifiers, and every actual
invocation of a destroyer is recorded as an explicit event so that call counts
can be reasoned about.
-/

namespace VSC

/-- Embedding of the state of a `vsc::ScopedResource<T, AuxType>` object
(src/include/VSC/util/ScopedResource.h, lines 40-45): the destroyer function
pointer (an opaque identifier here), the validity flag, the managed handle and
the auxiliary context. The no-aux specialization corresponds to `A = Unit`. -/
structure ScopedResource (T A : Type) where
  destroyResource : Nat
  resourceValid : Bool
  managedResource : T
  aux : A
deriving DecidableEq

/-- One invocation of a destroyer: which destroyer was called, on which handle,
with which auxiliary context. -/
structure DestroyEvent (T A : Type) where
  destroyResource : Nat
  handle : T
  aux : A
deriving DecidableEq

/-- Embedding of `ScopedResource::releaseResource` (ScopedResource.h lines
47-61): if the resource is valid, invoke the destroyer on the managed handle
(recorded as an event) and clear validity; otherwise do nothing. -/
def releaseResource (s : ScopedResource T A) : ScopedResource T A × List (DestroyEvent T A) :=
  if s.resourceValid then
    ({ s with resourceValid := false }, [⟨s.destroyResource, s.managedResource, s.aux⟩])
  else (s, [])

/-- Embedding of the uninitialized constructor taking only a destroyer
(ScopedResource.h lines 162-166): the handle member is default-initialized and
validity starts false. -/
def mkUninit (d : Nat) [Inhabited T] [Inhabited A] : ScopedResource T A :=
  ⟨d, false, default, default⟩

/-- Embedding of the uninitialized constructor taking a destroyer and an aux
context (ScopedResource.h lines 168-172). -/
def mkUninitAux (d : Nat) (a : A) [Inhabited T] : ScopedResource T A :=
  ⟨d, false, default, a⟩

/-- Embedding of the pre-initialized constructor without aux (ScopedResource.h
lines 174-180): adopts the handle with the given validity flag; the aux member
is default-initialized. -/
def mkInit (h : T) (d : Nat) (valid : Bool) [Inhabited A] : ScopedResource T A :=
  ⟨d, valid, h, default⟩

/-- Embedding of the pre-initialized constructor with aux (ScopedResource.h
lines 182-189). -/
def mkInitAux (h : T) (d : Nat) (a : A) (valid : Bool) : ScopedResource T A :=
  ⟨d, valid, h, a⟩

/-- The pre-initialized constructor with the `valid` argument left at its
declared default `true` (ScopedResource.h lines 83-84). -/
def mkInitDefault (h : T) (d : Nat) [Inhabited A] : ScopedResource T A :=
  mkInit h d true

/-- Embedding of the move constructor (ScopedResource.h lines 191-197). Its
member-initializer list copies the destroyer, the validity flag and the handle
from the source and then invalidates the source; the `aux` member is absent
from the initializer list, so the target's aux is default-initialized rather
than taken from the source. Returns (target, updated source). -/
def moveConstruct (src : ScopedResource T A) [Inhabited A] :
    ScopedResource T A × ScopedResource T A :=
  (⟨src.destroyResource, src.resourceValid, src.managedResource, default⟩,
   { src with resourceValid := false })

/-- Embedding of the move assignment operator (ScopedResource.h lines 199-207):
first release whatever the destination currently owns, then assign the
destroyer, validity flag and handle from the source and invalidate the source.
The `aux` member is never assigned, so the destination keeps its previous aux.
Returns ((updated destination, updated source), destroy events). -/
def moveAssign (dst src : ScopedResource T A) :
    (ScopedResource T A × ScopedResource T A) × List (DestroyEvent T A) :=
  let p := releaseResource dst
  (({ p.1 with
        destroyResource := src.destroyResource,
        resourceValid := src.resourceValid,
        managedResource := src.managedResource },
    { src with resourceValid := false }), p.2)

/-- Embedding of `ScopedResource::takeOwnership` (ScopedResource.h lines
209-214): release the current resource, adopt the new handle, set validity. -/
def takeOwnership (s : ScopedResource T A) (h : T) :
    ScopedResource T A × List (DestroyEvent T A) :=
  let p := releaseResource s
  ({ p.1 with managedResource := h, resourceValid := true }, p.2)

/-- Embedding of the no-aux `makeScoped` factory (ScopedResource.h lines
217-223): wraps the creator's result in a pre-initialized ScopedResource,
leaving the constructor's `valid` argument at its default `true`. -/
def makeScoped (d : Nat) (createResource : α → T) (a : α) : ScopedResource T Unit :=
  mkInit (createResource a) d true

/-- Embedding of the aux-carrying `makeScoped` factory (ScopedResource.h lines
225-232). -/
def makeScopedAux (auxVal : A) (d : Nat) (createResource : α → T) (x : α) :
    ScopedResource T A :=
  mkInitAux (createResource x) d auxVal true

/-- A concrete aux-carrying resource used to exhibit the move behavior:
destroyer id 7, valid, handle 42, aux 5. -/
def srcCell : ScopedResource Nat Nat := ⟨7, true, 42, 5⟩

/-- A concrete destination resource: destroyer id 2, valid, handle 9, aux 3. -/
def dstCell : ScopedResource Nat Nat := ⟨2, true, 9, 3⟩

/-- C2: counter-evidence. The claim says move construction and move assignment
transfer all four of handle, destroyer, aux and validity. Evaluating the
embedded move operations on srcCell (aux = 5) shows the move-constructed target
carries the default aux 0, not 5, and the move-assigned destination keeps its
own previous aux 3, not 5; handle, destroyer and validity do transfer and the
source is invalidated. -/
theorem ScopedResource.move_aux_not_transferred :
    (moveConstruct srcCell).1 = ⟨7, true, 42, 0⟩
    ∧ (moveConstruct srcCell).1.aux ≠ srcCell.aux
    ∧ (moveConstruct srcCell).2.resourceValid = false
    ∧ (moveAssign dstCell srcCell).1.1
        = ⟨7, true, 42, 3⟩
    ∧ (moveAssign dstCell srcCell).1.1.aux ≠ srcCell.aux
    ∧ (moveAssign dstCell srcCell).2 = [⟨2, 9, 3⟩] := by
  decide

/-- C9: takeOwnership always leaves the instance valid and holding the new
handle, and it emits exactly the release of the previously held handle when the
instance was valid, nothing otherwise. -/
theorem takeOwnership_releases_then_adopts :
    ∀ (s : ScopedResource Nat Nat) (h : Nat),
      (takeOwnership s h).1.resourceValid = true
      ∧ (takeOwnership s h).1.managedResource = h
      ∧ (takeOwnership s h).2
          = (if s.resourceValid then [⟨s.destroyResource, s.managedResource, s.aux⟩]
             else [])
      ∧ (takeOwnership s h).2.length = (if s.resourceValid then 1 else 0) := by
  intro s h
  unfold takeOwnership releaseResource
  by_cases hv : s.resourceValid <;> simp [hv]

/-- C10: the resources produced by makeScoped (both overloads) and by the
pre-initialized constructor with the validity argument left at its default are
valid unconditionally, whatever handle the creator returned (including a null
handle 0), so their eventual destruction invokes the destroyer on that
handle. -/
theorem makeScoped_unconditionally_valid :
    ∀ (createResource : Nat → Nat) (a d h0 : Nat),
      (makeScoped d createResource a).resourceValid = true
      ∧ (makeScoped d createResource a).managedResource = createResource a
      ∧ (releaseResource (makeScoped d createResource a)).2
          = [⟨d, createResource a, ()⟩]
      ∧ (makeScopedAux (77 : Nat) d createResource a).resourceValid = true
      ∧ (mkInitDefault h0 d : ScopedResource Nat Unit).resourceValid = true := by
  intro createResource a d h0
  simp [makeScoped, makeScopedAux, mkInit, mkInitAux, mkInitDefault, releaseResource]

/-- Operations a client can perform on a collection of ScopedResource cells,
addressed by index: the two construction flavors, move construction from an
existing cell (appending the new cell), move assignment between cells, explicit
takeOwnership and destruction (the C++ destructor, which just calls
releaseResource). -/
inductive Op (T A : Type) where
  | construct (d : Nat) (a : A)
  | constructInit (h : T) (d : Nat) (a : A) (valid : Bool)
  | moveCtor (src : Nat)
  | moveAssignOp (dst src : Nat)
  | takeOwn (i : Nat) (h : T)
  | destruct (i : Nat)

/-- The three member assignments performed by the move assignment operator
(ScopedResource.h lines 203-205): destroyer, validity flag and handle come from
the source; the aux member is not assigned. -/
def assignFields (dstc src : ScopedResource T A) : ScopedResource T A :=
  { dstc with
      destroyResource := src.destroyResource,
      resourceValid := src.resourceValid,
      managedResource := src.managedResource }

/-- One step of the small-step semantics: apply an operation to the store of
cells, yielding the new store and the destroyer invocations it triggered.
Operations addressing an index with no cell are no-ops. The move-assignment
case re-reads the source after releasing the destination so that the
self-assignment aliasing of the C++ code is modelled faithfully. -/
def step [Inhabited T] [Inhabited A] (st : List (ScopedResource T A)) :
    Op T A → List (ScopedResource T A) × List (DestroyEvent T A)
  | .construct d a => (st ++ [mkUninitAux d a], [])
  | .constructInit h d a v => (st ++ [mkInitAux h d a v], [])
  | .moveCtor src =>
    match st[src]? with
    | none => (st, [])
    | some c =>
      let p := moveConstruct c
      (st.set src p.2 ++ [p.1], [])
  | .moveAssignOp dst src =>
    match st[dst]?, st[src]? with
    | some cd, some cs0 =>
      let q := releaseResource cd
      let cs := if dst = src then q.1 else cs0
      let cd2 := assignFields q.1 cs
      ((st.set dst cd2).set src
         (if dst = src then { cd2 with resourceValid := false }
          else { cs0 with resourceValid := false }), q.2)
    | _, _ => (st, [])
  | .takeOwn i h =>
    match st[i]? with
    | none => (st, [])
    | some c =>
      let p := takeOwnership c h
      (st.set i p.1, p.2)
  | .destruct i =>
    match st[i]? with
    | none => (st, [])
    | some c =>
      let p := releaseResource c
      (st.set i p.1, p.2)

/-- Run a sequence of operations from a store, collecting every destroyer
invocation in order. -/
def run [Inhabited T] [Inhabited A] (st : List (ScopedResource T A)) :
    List (Op T A) → List (ScopedResource T A) × List (DestroyEvent T A)
  | [] => (st, [])
  | op :: ops =>
    let p := step st op
    let q := run p.1 ops
    (q.1, p.2 ++ q.2)

/-- Number of currently valid cells in a store. -/
def validCount (st : List (ScopedResource T A)) : Nat :=
  st.countP (fun c => c.resourceValid)

/-- How many handle acquisitions an operation performs: a pre-initialized
construction with validity true and a takeOwnership each acquire one handle;
moves only transfer ownership and acquire nothing. -/
def acqOf : Op T A → Nat
  | .constructInit _ _ _ v => if v then 1 else 0
  | .takeOwn _ _ => 1
  | _ => 0

/-- Total number of handle acquisitions in an operation sequence. -/
def acquisitions (ops : List (Op T A)) : Nat := (ops.map acqOf).sum

/-- Contribution of a single cell to the valid-cell count. -/
def vb (c : ScopedResource T A) : Nat := if c.resourceValid then 1 else 0

theorem validCount_cons (a : ScopedResource T A) (t : List (ScopedResource T A)) :
    validCount (a :: t) = validCount t + vb a := by
  simp [validCount, vb, List.countP_cons]

theorem validCount_append (st : List (ScopedResource T A)) (c : ScopedResource T A) :
    validCount (st ++ [c]) = validCount st + vb c := by
  simp [validCount, vb, List.countP_append, List.countP_cons]

theorem validCount_set (st : List (ScopedResource T A)) (i : Nat)
    (c c' : ScopedResource T A) (h : st[i]? = some c) :
    validCount (st.set i c') + vb c = validCount st + vb c' := by
  induction st generalizing i with
  | nil => simp at h
  | cons a t ih =>
    cases i with
    | zero =>
      simp only [List.getElem?_cons_zero, Option.some.injEq] at h
      rw [show (a :: t).set 0 c' = c' :: t from rfl, validCount_cons, validCount_cons, h]
      omega
    | succ n =>
      simp only [List.getElem?_cons_succ] at h
      rw [show (a :: t).set (n + 1) c' = a :: t.set n c' from rfl,
          validCount_cons, validCount_cons]
      have := ih n h
      omega

theorem validCount_set2 (st : List (ScopedResource T A)) (i j : Nat)
    (ci cj ci' cj' : ScopedResource T A) (hij : i ≠ j)
    (hi : st[i]? = some ci) (hj : st[j]? = some cj) :
    validCount ((st.set i ci').set j cj') + vb ci + vb cj
      = validCount st + vb ci' + vb cj' := by
  have h1 := validCount_set st i ci ci' hi
  have hmid : (st.set i ci')[j]? = some cj := by
    rw [List.getElem?_set_ne hij]; exact hj
  have h2 := validCount_set (st.set i ci') j cj cj' hmid
  omega

theorem releaseResource_fst (s : ScopedResource T A) :
    (releaseResource s).1 = { s with resourceValid := false } := by
  cases s with
  | mk d v m a => by_cases h : v <;> simp [releaseResource, h]

theorem releaseResource_len (s : ScopedResource T A) :
    (releaseResource s).2.length = vb s := by
  by_cases h : s.resourceValid <;> simp [releaseResource, vb, h]

theorem moveCtor_count (st : List (ScopedResource T A)) (src : Nat)
    (c x t : ScopedResource T A) (hsrc : st[src]? = some c)
    (hx : x.resourceValid = false) (ht : vb t = vb c) :
    validCount (st.set src x ++ [t]) ≤ validCount st := by
  rw [validCount_append]
  have h1 := validCount_set st src c x hsrc
  have hx0 : vb x = 0 := by simp [vb, hx]
  omega

theorem moveAssign_count (st : List (ScopedResource T A)) (dst src : Nat)
    (cd cs0 x y : ScopedResource T A) (heq : dst ≠ src)
    (hdst : st[dst]? = some cd) (hsrc : st[src]? = some cs0)
    (hx : x.resourceValid = cs0.resourceValid) (hy : y.resourceValid = false) :
    vb cd + validCount ((st.set dst x).set src y) ≤ validCount st := by
  have hb := validCount_set2 st dst src cd cs0 x y heq hdst hsrc
  have hx0 : vb x = vb cs0 := by simp [vb, hx]
  have hy0 : vb y = 0 := by simp [vb, hy]
  omega

theorem moveAssign_alias_count (st : List (ScopedResource T A)) (dst : Nat)
    (cd x y : ScopedResource T A) (hdst : st[dst]? = some cd)
    (hy : y.resourceValid = false) :
    vb cd + validCount ((st.set dst x).set dst y) ≤ validCount st := by
  rw [List.set_set]
  have h1 := validCount_set st dst cd y hdst
  have hy0 : vb y = 0 := by simp [vb, hy]
  omega

theorem takeOwn_count (st : List (ScopedResource T A)) (i : Nat)
    (c x : ScopedResource T A) (hi : st[i]? = some c)
    (hx : x.resourceValid = true) :
    vb c + validCount (st.set i x) ≤ 1 + validCount st := by
  have h1 := validCount_set st i c x hi
  have hx1 : vb x = 1 := by simp [vb, hx]
  omega

theorem destruct_count (st : List (ScopedResource T A)) (i : Nat)
    (c x : ScopedResource T A) (hi : st[i]? = some c)
    (hx : x.resourceValid = false) :
    vb c + validCount (st.set i x) ≤ validCount st := by
  have h1 := validCount_set st i c x hi
  have hx0 : vb x = 0 := by simp [vb, hx]
  omega

theorem stepBalance [Inhabited T] [Inhabited A] (st : List (ScopedResource T A))
    (op : Op T A) :
    (step st op).2.length + validCount (step st op).1
      ≤ acqOf op + validCount st := by
  cases op with
  | construct d a =>
    simp [step, acqOf, validCount_append, vb, mkUninitAux]
  | constructInit h d a v =>
    simp only [step, acqOf, validCount_append, List.length_nil]
    have hv : vb (mkInitAux h d a v : ScopedResource T A) = if v then 1 else 0 := by
      simp [vb, mkInitAux]
    rw [hv]
    by_cases hb : v
    · simp [hb]
      omega
    · simp [hb]
  | moveCtor src =>
    cases hsrc : st[src]? with
    | none => simp [step, hsrc]
    | some c =>
      simp only [step, hsrc, acqOf, List.length_nil, Nat.zero_add]
      exact moveCtor_count st src c (moveConstruct c).2 (moveConstruct c).1 hsrc
        (by simp [moveConstruct]) (by simp [vb, moveConstruct])
  | moveAssignOp dst src =>
    cases hdst : st[dst]? with
    | none => simp [step, hdst]
    | some cd =>
      cases hsrc : st[src]? with
      | none => cases hd2 : st[dst]? <;> simp [step, hdst, hsrc]
      | some cs0 =>
        by_cases heq : dst = src
        · subst heq
          have hc : cd = cs0 := by rw [hdst] at hsrc; exact Option.some.inj hsrc
          subst hc
          simp only [step, hdst, acqOf, releaseResource_len, Nat.zero_add]
          apply moveAssign_alias_count st dst cd _ _ hdst
          simp [assignFields]
        · simp only [step, hdst, hsrc, acqOf, if_neg heq, releaseResource_len,
            Nat.zero_add]
          apply moveAssign_count st dst src cd cs0 _ _ heq hdst hsrc
          · simp [assignFields]
          · simp
  | takeOwn i h =>
    cases hi : st[i]? with
    | none => simp [step, hi]
    | some c =>
      simp only [step, hi, acqOf, takeOwnership, releaseResource_len]
      exact takeOwn_count st i c _ hi (by simp)
  | destruct i =>
    cases hi : st[i]? with
    | none => simp [step, hi]
    | some c =>
      simp only [step, hi, acqOf, releaseResource_len, Nat.zero_add]
      exact destruct_count st i c _ hi (by rw [releaseResource_fst])

theorem runBalance [Inhabited T] [Inhabited A] (ops : List (Op T A))
    (st : List (ScopedResource T A)) :
    (run st ops).2.length + validCount (run st ops).1
      ≤ acquisitions ops + validCount st := by
  induction ops generalizing st with
  | nil => simp [run, acquisitions]
  | cons op ops ih =>
    simp only [run, acquisitions, List.map_cons, List.sum_cons, List.length_append]
    have h1 := stepBalance st op
    have h2 := ih (step st op).1
    simp [acquisitions] at h2
    omega

theorem run_append [Inhabited T] [Inhabited A] (l1 l2 : List (Op T A))
    (st : List (ScopedResource T A)) :
    run st (l1 ++ l2)
      = ((run (run st l1).1 l2).1, (run st l1).2 ++ (run (run st l1).1 l2).2) := by
  induction l1 generalizing st with
  | nil => simp [run]
  | cons op ops ih => simp [run, ih, List.append_assoc]

theorem destruct_after_moveCtor_silent [Inhabited T] [Inhabited A]
    (st : List (ScopedResource T A)) (src : Nat) :
    (step (step st (Op.moveCtor src)).1 (Op.destruct src)).2 = [] := by
  simp only [step]
  cases hsrc : st[src]? with
  | none =>
    simp only []
    cases hsrc2 : st[src]? with
    | none => rfl
    | some c => rw [hsrc] at hsrc2; exact absurd hsrc2 (by simp)
  | some c =>
    have hlen : src < st.length := (List.getElem?_eq_some.mp hsrc).1
    have hmid : (st.set src (moveConstruct c).2 ++ [(moveConstruct c).1])[src]?
        = some (moveConstruct c).2 := by
      rw [List.getElem?_append]
      simp only [List.length_set]
      rw [if_pos hlen]
      exact List.getElem?_set_eq_of_lt _ hlen
    simp only [hmid]
    simp [moveConstruct, releaseResource]

/-- C1: over every operation sequence on ScopedResource cells, the total number
of destroyer invocations never exceeds the number of handle acquisitions (so
each acquired handle is destroyed at most once); destroying an instance
immediately after it was moved from invokes no destroyer; and releaseResource
invokes nothing on an invalid instance, so the destroyer only ever runs while
the instance is valid. -/
theorem ScopedResource.destroyer_at_most_once :
    (∀ ops : List (Op Nat Nat), (run [] ops).2.length ≤ acquisitions ops)
    ∧ (∀ (ops : List (Op Nat Nat)) (src : Nat),
        (run [] (ops ++ [Op.moveCtor src, Op.destruct src])).2
          = (run [] (ops ++ [Op.moveCtor src])).2)
    ∧ (∀ s : ScopedResource Nat Nat,
        s.resourceValid = false → (releaseResource s).2 = []) := by
  refine ⟨?_, ?_, ?_⟩
  · intro ops
    have := runBalance ops ([] : List (ScopedResource Nat Nat))
    simp [validCount] at this
    omega
  · intro ops src
    rw [run_append, run_append]
    have hdecomp :
        run (run ([] : List (ScopedResource Nat Nat)) ops).1
            [Op.moveCtor src, Op.destruct src]
          = ((run (run [] ops).1 [Op.moveCtor src, Op.destruct src]).1,
             (run (run [] ops).1 [Op.moveCtor src]).2
               ++ (step (step (run [] ops).1 (Op.moveCtor src)).1 (Op.destruct src)).2) := by
      simp [run]
    rw [hdecomp, destruct_after_moveCtor_silent]
    simp
  · intro s hs
    simp [releaseResource, hs]

/-- Witness for the hypothesis of the third conjunct of
ScopedResource.destroyer_at_most_once, at a concrete invalid instance. -/
theorem ScopedResource.destroyer_at_most_once_witness :
    (⟨0, false, 0, 0⟩ : ScopedResource Nat Nat).resourceValid = false
    ∧ (releaseResource (⟨0, false, 0, 0⟩ : ScopedResource Nat Nat)).2 = [] :=
  ⟨rfl, ScopedResource.destroyer_at_most_once.2.2 ⟨0, false, 0, 0⟩ rfl⟩

/-
Embedding of src/src/EnumeratorVk.cpp together with its header EnumeratorVk.h,
whose text (struct declarations and field initializers) appears concatenated
into src/include/VSC/gfx/Canvas2dVk.h at lines 88-204. The Vulkan runtime is an
external collaborator; its two-call enumeration pattern is embedded as oracle
inputs: a count query that either fails or yields a count, and a data query
that either fails or yields the records it would write into a buffer of the
given size (the buffer size is reflected by truncating with take). Native
handles are numbers.
-/

/-- An instance extension record; only its name participates in the logic. -/
structure VkExtensionProperties where
  extensionName : String
deriving DecidableEq

/-- A layer record; only its name participates in the logic. -/
structure VkLayerProperties where
  layerName : String
deriving DecidableEq

/-- Embedding of `ExtEnumeratorVk::updateCache` (EnumeratorVk.cpp lines 22-36):
count query failure throws, a count of exactly zero throws, the cache is
resized to the count, and a data query failure throws. -/
def ExtEnumeratorVk.updateCache (countQ : Option Nat)
    (dataQ : Nat → Option (List VkExtensionProperties)) :
    Except String (List VkExtensionProperties) :=
  match countQ with
  | none => Except.error "Failed to enumerate Vulkan extension count."
  | some availableExtCnt =>
    if availableExtCnt = 0 then Except.error "No vulkan extensions are available."
    else
      match dataQ availableExtCnt with
      | none => Except.error "Failed to retrieve Vulkan extension props."
      | some props => Except.ok (props.take availableExtCnt)

/-- Embedding of `LayerEnumeratorVk::updateCache` (EnumeratorVk.cpp lines
55-65): count query failure throws, the cache is resized to the count (with no
zero-count check), and a data query failure throws. -/
def LayerEnumeratorVk.updateCache (countQ : Option Nat)
    (dataQ : Nat → Option (List VkLayerProperties)) :
    Except String (List VkLayerProperties) :=
  match countQ with
  | none => Except.error "Failed to enumerate Vulkan layer count."
  | some availableLayerCnt =>
    match dataQ availableLayerCnt with
    | none => Except.error "Failed to retrieve Vulkan layer props."
    | some props => Except.ok (props.take availableLayerCnt)

/-- VK_QUEUE_GRAPHICS_BIT, the graphics capability bit (value 0x1). -/
def vkQueueGraphicsBit : Nat := 1

/-- A queue-family descriptor: capability bitmask and queue count. -/
structure VkQueueFamilyProperties where
  queueFlags : Nat
  queueCount : Nat
deriving DecidableEq

/-- The device classes the scoring rubric distinguishes. -/
inductive VkPhysicalDeviceType where
  | other
  | integratedGpu
  | discreteGpu
  | virtualGpu
  | cpu
deriving DecidableEq

/-- Device limits; only maxImageDimension2D participates in the scoring. -/
structure VkPhysicalDeviceLimits where
  maxImageDimension2D : Nat
deriving DecidableEq

/-- Global device properties: class and limits. -/
structure VkPhysicalDeviceProperties where
  deviceType : VkPhysicalDeviceType
  limits : VkPhysicalDeviceLimits
deriving DecidableEq

/-- Device feature bits; cached but never read by the selection logic. -/
structure VkPhysicalDeviceFeatures where
  geometryShader : Bool
deriving DecidableEq

/-- Per-candidate cached data: queue families in order, properties, features
(EnumeratorVk.cpp lines 94-107). -/
structure PhysicalDeviceDataVk where
  queueFamilies : List VkQueueFamilyProperties
  properties : VkPhysicalDeviceProperties
  features : VkPhysicalDeviceFeatures
deriving DecidableEq

/-- Embedding of `struct PhysicalDeviceSelectionVk`, declared in EnumeratorVk.h
(its text is concatenated into src/include/VSC/gfx/Canvas2dVk.h, lines
178-185): `int score = 0;`, `VkPhysicalDevice dev = VK_NULL_HANDLE;` and two
`std::optional<uint32_t>` queue-family indices that default-construct to
absent. A default-constructed value is built by `PhysicalDeviceSelectionVk.init`
below. -/
structure PhysicalDeviceSelectionVk where
  score : Int
  dev : Nat
  graphicsQueueFamilyIdx : Option Nat
  presentationQueueFamilyIdx : Option Nat
deriving DecidableEq

/-- The default-constructed `PhysicalDeviceSelectionVk` per the in-class
initializers (Canvas2dVk.h lines 179-182): score 0, null device handle, both
indices absent. -/
def PhysicalDeviceSelectionVk.init : PhysicalDeviceSelectionVk :=
  { score := 0, dev := 0, graphicsQueueFamilyIdx := none,
    presentationQueueFamilyIdx := none }

/-- Embedding of `PhysicalDeviceSelectionVk::hasAllRequiredQueues`
(EnumeratorVk.cpp lines 74-76): both the graphics and the presentation
queue-family indices must be resolved. -/
def PhysicalDeviceSelectionVk.hasAllRequiredQueues
    (s : PhysicalDeviceSelectionVk) : Bool :=
  s.graphicsQueueFamilyIdx.isSome && s.presentationQueueFamilyIdx.isSome

/-- Embedding of `PhysicalDeviceEnumeratorVk::scorePhysDevice`
(EnumeratorVk.cpp lines 125-154). The local selection starts default-constructed
(so score 0 and absent indices, per the in-class initializers) and gets its dev
field assigned. The queue-family loop carries the counter `queueNum` (the first
component of the fold state), which the source initializes to 0 and never
increments; each family with the graphics bit set overwrites the recorded index
with the current counter value. The enumerator's stored surface member
(Canvas2dVk.h line 190) is never read and the presentation index is never
assigned. Then the rubric accumulates into the score: 1000 for a discrete GPU,
100 for an integrated GPU, 0 otherwise, plus the raw maxImageDimension2D limit;
finally the score is forced to -1 when hasAllRequiredQueues fails. -/
def scorePhysDevice (dev : Nat) (devData : PhysicalDeviceDataVk) :
    PhysicalDeviceSelectionVk :=
  let devSel0 : PhysicalDeviceSelectionVk :=
    { PhysicalDeviceSelectionVk.init with dev := dev }
  let loopState := devData.queueFamilies.foldl
    (fun (st : Nat × Option Nat) qf =>
      if qf.queueFlags &&& vkQueueGraphicsBit ≠ 0 then (st.1, some st.1) else st)
    (0, none)
  let devSel1 : PhysicalDeviceSelectionVk :=
    { devSel0 with graphicsQueueFamilyIdx := loopState.2 }
  let base : Int :=
    match devData.properties.deviceType with
    | VkPhysicalDeviceType.discreteGpu => 1000
    | VkPhysicalDeviceType.integratedGpu => 100
    | _ => 0
  let devSel2 : PhysicalDeviceSelectionVk :=
    { devSel1 with
        score := devSel1.score + base
          + (devData.properties.limits.maxImageDimension2D : Int) }
  if ¬ devSel2.hasAllRequiredQueues then { devSel2 with score := -1 } else devSel2

/-- Insertion into the std::multimap scoreboard ordered by score: an element
is placed after every element whose key is less than or equal to its own, as
multimap insertion places equal keys at the upper bound of their range. -/
def multimapInsert (l : List (Int × PhysicalDeviceSelectionVk))
    (p : Int × PhysicalDeviceSelectionVk) : List (Int × PhysicalDeviceSelectionVk) :=
  match l with
  | [] => [p]
  | q :: rest => if p.1 < q.1 then p :: q :: rest else q :: multimapInsert rest p

/-- Insertion into the std::unordered_map device cache keyed by device handle
(Canvas2dVk.h line 191): inserting an already-present key leaves the map
unchanged; a new key is added. The native container's iteration order is
unspecified, so the embedding keeps insertion order as a representative. -/
def mapInsert (l : List (Nat × PhysicalDeviceDataVk)) (p : Nat × PhysicalDeviceDataVk) :
    List (Nat × PhysicalDeviceDataVk) :=
  if l.any (fun q => q.1 == p.1) then l else l ++ [p]

/-- Embedding of `PhysicalDeviceEnumeratorVk::updateCache` (EnumeratorVk.cpp
lines 83-108): count query failure throws, a count of zero throws, data query
failure throws; each enumerated device's queue families, properties and
features are gathered by void (infallible) native calls, reflected here by the
data query already carrying each device's data, and inserted into the
handle-keyed map cache. -/
def PhysicalDeviceEnumeratorVk.updateCache (countQ : Option Nat)
    (dataQ : Nat → Option (List (Nat × PhysicalDeviceDataVk))) :
    Except String (List (Nat × PhysicalDeviceDataVk)) :=
  match countQ with
  | none => Except.error "Failed to enumerate Vulkan devices"
  | some physDeviceCnt =>
    if physDeviceCnt = 0 then Except.error "No GPUs found with Vulkan support."
    else
      match dataQ physDeviceCnt with
      | none => Except.error "Failed to retrieve Vulkan device data."
      | some physDevices => Except.ok ((physDevices.take physDeviceCnt).foldl mapInsert [])

/-- Dereference of a C++ reverse iterator over the scoreboard, identified by
the position of its base iterator: dereferencing reads the element one
position before the base. The result is none when that position is before the
first element, which is an out-of-range (undefined-behavior) access in the
source. For rend(), the base is begin(), position 0. -/
def reverseIteratorDeref (l : List (Int × PhysicalDeviceSelectionVk))
    (basePos : Nat) : Option (Int × PhysicalDeviceSelectionVk) :=
  if basePos = 0 then none else l[basePos - 1]?

/-- Embedding of `PhysicalDeviceEnumeratorVk::selectPhysDevice`
(EnumeratorVk.cpp lines 110-123): score every cached candidate into a
score-keyed multimap, then read `deviceScoreBoard.rend()->first` to decide the
failure branch and `deviceScoreBoard.rend()->second` as the returned
selection. Both reads dereference the reverse end iterator, whose base is
begin() at position 0; the overall result is none when that dereference is out
of range. -/
def selectPhysDevice (deviceDataCache : List (Nat × PhysicalDeviceDataVk)) :
    Option (Except String PhysicalDeviceSelectionVk) :=
  let deviceScoreBoard := deviceDataCache.foldl
    (fun board deviceDataPair =>
      let data := scorePhysDevice deviceDataPair.1 deviceDataPair.2
      multimapInsert board (data.score, data))
    []
  match reverseIteratorDeref deviceScoreBoard 0 with
  | none => none
  | some e =>
    if e.1 < 0 then some (Except.error "No suitable GPU devices found.")
    else some (Except.ok e.2)

/-- Whether an enumeration attempt threw. -/
def isFailure : Except String α → Bool
  | Except.error _ => true
  | Except.ok _ => false

/-- A queue family without the graphics capability bit. -/
def qfNoGraphics : VkQueueFamilyProperties := ⟨0, 1⟩

/-- A queue family with the graphics capability bit set. -/
def qfGraphics : VkQueueFamilyProperties := ⟨1, 1⟩

/-- A candidate whose graphics-capable family is the second one (index 1):
families are (no graphics, graphics). -/
def lastMatchDevData : PhysicalDeviceDataVk :=
  ⟨[qfNoGraphics, qfGraphics], ⟨VkPhysicalDeviceType.discreteGpu, ⟨4096⟩⟩, ⟨true⟩⟩

/-- A candidate with no queue families at all. -/
def noFamilyDevData : PhysicalDeviceDataVk :=
  ⟨[], ⟨VkPhysicalDeviceType.discreteGpu, ⟨4096⟩⟩, ⟨true⟩⟩

/-- A discrete-GPU candidate with a graphics-capable queue family. -/
def discreteDevData : PhysicalDeviceDataVk :=
  ⟨[qfGraphics], ⟨VkPhysicalDeviceType.discreteGpu, ⟨4096⟩⟩, ⟨true⟩⟩

/-- An integrated-GPU candidate with a graphics-capable queue family. -/
def integratedDevData : PhysicalDeviceDataVk :=
  ⟨[qfGraphics], ⟨VkPhysicalDeviceType.integratedGpu, ⟨100⟩⟩, ⟨true⟩⟩

/-- C3: counter-evidence. scorePhysDevice consults no surface at all: the
presentation queue-family index of its result is none for every candidate, so
hasAllRequiredQueues is always false and every candidate is scored -1. -/
theorem scorePhysDevice_never_records_presentation :
    ∀ (dev : Nat) (devData : PhysicalDeviceDataVk),
      (scorePhysDevice dev devData).presentationQueueFamilyIdx = none
      ∧ (scorePhysDevice dev devData).hasAllRequiredQueues = false
      ∧ (scorePhysDevice dev devData).score = -1 := by
  intro dev devData
  simp [scorePhysDevice, PhysicalDeviceSelectionVk.init,
    PhysicalDeviceSelectionVk.hasAllRequiredQueues]

/-- C4: counter-evidence. selectPhysDevice reads the scoreboard through the
reverse end iterator, whose base is begin() at position 0, so the element read
is one position before the first: out of range for every scoreboard, even a
nonempty one. The embedded function therefore yields none (marking the
undefined-behavior access) on every cache, rather than the highest-scoring
selection or the NoSuitableDeviceError decision the claim describes. -/
theorem selectPhysDevice_reads_before_first_element :
    (∀ deviceDataCache, selectPhysDevice deviceDataCache = none)
    ∧ multimapInsert [] ((-1 : Int), scorePhysDevice 0 discreteDevData) ≠ []
    ∧ reverseIteratorDeref
        (multimapInsert [] ((-1 : Int), scorePhysDevice 0 discreteDevData)) 0 = none := by
  refine ⟨?_, by decide, by decide⟩
  intro cache
  simp [selectPhysDevice, reverseIteratorDeref]

/-- C5: counter-evidence. On a candidate whose only graphics-capable family is
at index 1, scorePhysDevice records graphics queue-family index 0, because the
loop counter queueNum is initialized to 0 and never incremented; the claimed
last-match index 1 is not recorded. When no family has the bit, the index does
stay absent. -/
theorem scorePhysDevice_graphics_index_stuck_at_zero :
    (scorePhysDevice 0 lastMatchDevData).graphicsQueueFamilyIdx = some 0
    ∧ (scorePhysDevice 0 lastMatchDevData).graphicsQueueFamilyIdx ≠ some 1
    ∧ (scorePhysDevice 0 noFamilyDevData).graphicsQueueFamilyIdx = none := by
  decide

/-- C6: the score scorePhysDevice computes is the class base (1000 discrete,
100 integrated, 0 otherwise) plus the raw maxImageDimension2D limit, and is
forced to -1 whenever the required queue families are not both resolved in the
resulting selection. -/
theorem scorePhysDevice_rubric :
    ∀ (dev : Nat) (devData : PhysicalDeviceDataVk),
      (scorePhysDevice dev devData).score =
        if (scorePhysDevice dev devData).hasAllRequiredQueues then
          (match devData.properties.deviceType with
           | VkPhysicalDeviceType.discreteGpu => (1000 : Int)
           | VkPhysicalDeviceType.integratedGpu => 100
           | _ => 0) + (devData.properties.limits.maxImageDimension2D : Int)
        else -1 := by
  intro dev devData
  simp [scorePhysDevice, PhysicalDeviceSelectionVk.init,
    PhysicalDeviceSelectionVk.hasAllRequiredQueues]

/-- C7: counter-evidence. A discrete-GPU candidate and an integrated-GPU
candidate, each exposing a graphics-capable queue family, are both scored -1
(because the presentation index is never recorded, every candidate is
disqualified), so the discrete candidate's score is not strictly greater. -/
theorem discrete_does_not_outscore_integrated :
    (scorePhysDevice 0 discreteDevData).score = -1
    ∧ (scorePhysDevice 1 integratedDevData).score = -1
    ∧ ¬ ((scorePhysDevice 0 discreteDevData).score
          > (scorePhysDevice 1 integratedDevData).score) := by
  decide

/-- C8: the enumeration operations fail exactly as claimed: extension
updateCache fails iff the count query fails, the count is zero, or the data
query fails; layer updateCache fails iff a query fails, and with a zero count
it succeeds with an empty cache whenever the data query succeeds; the
physical-device cache refresh fails iff the count query fails, zero candidates
are reported, or the data query fails. -/
theorem enumeration_failure_exact_conditions :
    (∀ (countQ : Option Nat) (dataQ : Nat → Option (List VkExtensionProperties)),
        isFailure (ExtEnumeratorVk.updateCache countQ dataQ) = true ↔
          countQ = none ∨ countQ = some 0
            ∨ ∃ n, countQ = some n ∧ dataQ n = none)
    ∧ (∀ (countQ : Option Nat) (dataQ : Nat → Option (List VkLayerProperties)),
        isFailure (LayerEnumeratorVk.updateCache countQ dataQ) = true ↔
          countQ = none ∨ ∃ n, countQ = some n ∧ dataQ n = none)
    ∧ (∀ dataQ : Nat → Option (List VkLayerProperties),
        LayerEnumeratorVk.updateCache (some 0) dataQ =
          (match dataQ 0 with
           | none => Except.error "Failed to retrieve Vulkan layer props."
           | some _ => Except.ok []))
    ∧ (∀ (countQ : Option Nat)
          (dataQ : Nat → Option (List (Nat × PhysicalDeviceDataVk))),
        isFailure (PhysicalDeviceEnumeratorVk.updateCache countQ dataQ) = true ↔
          countQ = none ∨ countQ = some 0
            ∨ ∃ n, countQ = some n ∧ dataQ n = none) := by
  refine ⟨?_, ?_, ?_, ?_⟩
  · intro countQ dataQ
    cases countQ with
    | none => simp [ExtEnumeratorVk.updateCache, isFailure]
    | some n =>
      by_cases hn : n = 0
      · subst hn
        simp [ExtEnumeratorVk.updateCache, isFailure]
      · cases hd : dataQ n with
        | none => simp [ExtEnumeratorVk.updateCache, isFailure, hn, hd]
        | some l => simp [ExtEnumeratorVk.updateCache, isFailure, hn, hd]
  · intro countQ dataQ
    cases countQ with
    | none => simp [LayerEnumeratorVk.updateCache, isFailure]
    | some n =>
      cases hd : dataQ n with
      | none => simp [LayerEnumeratorVk.updateCache, isFailure, hd]
      | some l => simp [LayerEnumeratorVk.updateCache, isFailure, hd]
  · intro dataQ
    cases hd : dataQ 0 with
    | none => simp [LayerEnumeratorVk.updateCache, hd]
    | some l => simp [LayerEnumeratorVk.updateCache, hd]
  · intro countQ dataQ
    cases countQ with
    | none => simp [PhysicalDeviceEnumeratorVk.updateCache, isFailure]
    | some n =>
      by_cases hn : n = 0
      · subst hn
        simp [PhysicalDeviceEnumeratorVk.updateCache, isFailure]
      · cases hd : dataQ n with
        | none => simp [PhysicalDeviceEnumeratorVk.updateCache, isFailure, hn, hd]
        | some l => simp [PhysicalDeviceEnumeratorVk.updateCache, isFailure, hn, hd]

end VSC
